import Mathlib

/-!
Verification development for the crash-report repository (Deno/TypeScript).

The development shallowly embeds the two components of the system:

* the Collector, a single-route HTTP handler (server.ts, function handler)
  that validates a request, parses its JSON body and stores the payload in a
  key-value store under a fresh identifier;
* the Reporter (src/hook.ts, src/reporter.ts, src/utils.ts), which registers
  global error listeners when a base URL is configured, serializes trigger
  values, asks the user for confirmation, sends the report and terminates the
  host process.

JavaScript strings are modelled by Lean strings; JSON values by an inductive
type; external effects (key-value store results, the confirmation dialog, the
network send) are passed in as explicit parameters, and the effects a run
performs (writes, handle open/close counts, process exits, network sends) are
returned as explicit data so that theorems can speak about them.
-/

namespace CrashReport

/- ### Character-level string helpers

Lean string primitives such as String.endsWith do not reduce well inside the
kernel, so the few string operations the source uses (substring containment,
lower-casing, trimming, trailing-slash stripping) are defined over character
lists. -/

/-- Is the first list a prefix of the second list of characters? -/
def isPrefixList : List Char → List Char → Bool
  | [], _ => true
  | _ :: _, [] => false
  | p :: ps, c :: cs => p == c && isPrefixList ps cs

/-- Does pat occur as a contiguous substring of the second list? -/
def hasInfixList (pat : List Char) : List Char → Bool
  | [] => isPrefixList pat []
  | c :: cs => isPrefixList pat (c :: cs) || hasInfixList pat cs

/-- Substring containment, the model of the JavaScript String.includes. -/
def strContains (s pat : String) : Bool := hasInfixList pat.toList s.toList

/-- Character-wise lower-casing, the model of String.toLowerCase on the
ASCII header values the Collector inspects. -/
def lowerString (s : String) : String := String.mk (s.toList.map Char.toLower)

/-- Whitespace as trimmed by the JavaScript String.trim (ASCII part). -/
def isJsSpace (c : Char) : Bool :=
  c == ' ' || c == '\t' || c == '\n' || c == '\r' || c.toNat == 11 || c.toNat == 12

/-- The model of the JavaScript String.trim. -/
def trimString (s : String) : String :=
  String.mk (((s.toList.dropWhile isJsSpace).reverse.dropWhile isJsSpace).reverse)

/-- One trailing slash removed if present: the model of
replace(regex slash at end, empty string) used on CRASH_REPORT_BASE_URL. -/
def stripTrailingSlash (s : String) : String :=
  if s.toList.getLast? = some '/' then String.mk s.toList.dropLast else s

/- ### JSON values

JSON values as delivered by req.json() on the Collector side.  Arrays and
objects are separate mutual inductives so that decidable equality can be
derived. -/

mutual
inductive Json where
  | null : Json
  | bool (b : Bool) : Json
  | num (n : Int) : Json
  | str (s : String) : Json
  | arr (xs : JsonArr) : Json
  | obj (fs : JsonObj) : Json
  deriving DecidableEq
inductive JsonArr where
  | nil : JsonArr
  | cons (hd : Json) (tl : JsonArr) : JsonArr
  deriving DecidableEq
inductive JsonObj where
  | nil : JsonObj
  | cons (key : String) (val : Json) (tl : JsonObj) : JsonObj
  deriving DecidableEq
end

/-- Does the object carry a field with the given key?  This is the model of
the JavaScript expression (key in object) for parsed JSON objects. -/
def JsonObj.hasKey (k : String) : JsonObj → Bool
  | .nil => false
  | .cons key _ tl => key == k || JsonObj.hasKey k tl

/-- Hexadecimal digit, lower case, as produced by JSON.stringify escapes. -/
def hexDigit (n : Nat) : Char :=
  if n < 10 then Char.ofNat (48 + n) else Char.ofNat (87 + n)

/-- The escape JSON.stringify applies to a single character inside a string
literal. -/
def jsonEscapeChar (c : Char) : List Char :=
  if c = '"' then ['\\', '"']
  else if c = '\\' then ['\\', '\\']
  else if c = '\n' then ['\\', 'n']
  else if c = '\r' then ['\\', 'r']
  else if c = '\t' then ['\\', 't']
  else if c.toNat == 8 then ['\\', 'b']
  else if c.toNat == 12 then ['\\', 'f']
  else if c.toNat < 32 then ['\\', 'u', '0', '0', hexDigit (c.toNat / 16), hexDigit (c.toNat % 16)]
  else [c]

/-- String-body escaping of JSON.stringify. -/
def jsonEscape (s : String) : String :=
  String.mk (s.toList.foldr (fun c acc => jsonEscapeChar c ++ acc) [])

mutual
/-- The model of JSON.stringify, used by the Collector to build the 201
response body. -/
def Json.stringify : Json → String
  | .null => "null"
  | .bool true => "true"
  | .bool false => "false"
  | .num n => toString n
  | .str s => "\"" ++ jsonEscape s ++ "\""
  | .arr xs => "[" ++ Json.stringifyArr xs ++ "]"
  | .obj fs => "\x7b" ++ Json.stringifyObj fs ++ "\x7d"

def Json.stringifyArr : JsonArr → String
  | .nil => ""
  | .cons x .nil => Json.stringify x
  | .cons x (.cons y tl) => Json.stringify x ++ "," ++ Json.stringifyArr (.cons y tl)

def Json.stringifyObj : JsonObj → String
  | .nil => ""
  | .cons k v .nil => "\"" ++ jsonEscape k ++ "\":" ++ Json.stringify v
  | .cons k v (.cons k2 v2 tl) =>
      "\"" ++ jsonEscape k ++ "\":" ++ Json.stringify v ++ "," ++
        Json.stringifyObj (.cons k2 v2 tl)
end

/- ### Collector (server.ts, function handler)

The handler is embedded as a pure function from the request data and the
behaviour of the key-value store to a result that records the HTTP response,
the writes performed, and how many store handles were opened and closed. -/

/-- The configured report path of server.ts. -/
def REPORT_PATH : String := "/api/report"

/-- The data of an incoming request that the handler inspects.  bodyJson is
the outcome of await req.json(): ok with the parsed value, or error with the
text of the thrown parse error. -/
structure Request where
  pathname : String
  method : String
  contentType : Option String
  bodyJson : Except String Json

/-- The behaviour of the key-value store during one request: whether
Deno.openKv throws, the identifier crypto.randomUUID returns, and the outcome
of kv.set (error when the write throws, otherwise the ok flag of the commit
acknowledgment). -/
structure KvEnv where
  openResult : Except String Unit
  reportId : String
  setResult : Except String Bool

/-- What one run of the handler produced: the response (status, body and the
explicitly set headers) together with the store effects: the committed writes,
and how many handles were opened and closed. -/
structure HandlerResult where
  status : Nat
  body : String
  headers : List (String × String)
  stored : List (List String × Json)
  opened : Nat
  closed : Nat
  deriving DecidableEq

/-- The content-type gate of the handler: the header must be present and its
lower-cased value must contain application/json. -/
def contentTypeOk : Option String → Bool
  | none => false
  | some ct => strContains (lowerString ct) "application/json"

/-- The payload validation of the handler: the parsed body must be an object
(typeof object and not null; a parsed JSON array has neither key below) that
contains a report field and a timestamp field.  Only presence of the keys is
checked, never their values. -/
def validPayload : Json → Bool
  | .obj fs => fs.hasKey "report" && fs.hasKey "timestamp"
  | _ => false

/-- The body of the 201 response: the argument of JSON.stringify in the
source. -/
def successJson (id : String) : Json :=
  Json.obj (.cons "message" (.str "Report received successfully")
    (.cons "id" (.str id) .nil))

/-- The constant 500 body of the catch block in the source. -/
def internalErrorBody : String := "Internal Server Error: Failed to store report"

/-- The KV interaction block of the handler (the try/catch around openKv,
set and close).  The source closes the handle only after a successful commit;
when the commit acknowledgment is not ok the code throws, and the catch block
returns 500 without closing. -/
def storeReport (reportData : Json) (kv : KvEnv) : HandlerResult :=
  match kv.openResult with
  | .error _ =>
      { status := 500, body := internalErrorBody, headers := [],
        stored := [], opened := 0, closed := 0 }
  | .ok _ =>
      match kv.setResult with
      | .error _ =>
          { status := 500, body := internalErrorBody, headers := [],
            stored := [], opened := 1, closed := 0 }
      | .ok ok =>
          if ok then
            { status := 201,
              body := Json.stringify (successJson kv.reportId),
              headers := [("Content-Type", "application/json")],
              stored := [(["reports", kv.reportId], reportData)],
              opened := 1, closed := 1 }
          else
            { status := 500, body := internalErrorBody, headers := [],
              stored := [], opened := 1, closed := 0 }

/-- The request handler of server.ts, check for check. -/
def handler (req : Request) (kv : KvEnv) : HandlerResult :=
  if req.pathname ≠ REPORT_PATH then
    { status := 404, body := "Not Found", headers := [],
      stored := [], opened := 0, closed := 0 }
  else if req.method ≠ "POST" then
    { status := 405, body := "Method Not Allowed", headers := [("Allow", "POST")],
      stored := [], opened := 0, closed := 0 }
  else if ¬ contentTypeOk req.contentType then
    { status := 415, body := "Unsupported Media Type: Expected application/json",
      headers := [], stored := [], opened := 0, closed := 0 }
  else
    match req.bodyJson with
    | .error e =>
        { status := 400, body := "Bad Request: Invalid JSON - " ++ e,
          headers := [], stored := [], opened := 0, closed := 0 }
    | .ok reportData =>
        if ¬ validPayload reportData then
          { status := 400,
            body := "Bad Request: Payload missing required fields (e.g., timestamp, report)",
            headers := [], stored := [], opened := 0, closed := 0 }
        else
          storeReport reportData kv

/-- Direct lookup in the list of committed writes, the model of a subsequent
kv.get on the stored key. -/
def storeLookup (key : List String) (stored : List (List String × Json)) : Option Json :=
  (stored.find? (fun e => e.1 == key)).map (fun e => e.2)

/- ### Reporter configuration (src/reporter.ts, module-level constants)

The environment variable is modelled as an Option String; the source strips
one trailing slash and derives the endpoint only when the stripped base is a
truthy (that is, nonempty) string. -/

/-- CRASH_REPORT_BASE_URL of src/reporter.ts: the environment value with one
trailing slash removed; none when the variable is not set. -/
def crashReportBaseURL (env : Option String) : Option String :=
  env.map stripTrailingSlash

/-- CRASH_REPORT_ENDPOINT of src/reporter.ts: base plus /api/report when the
stripped base is truthy, otherwise null.  An empty stripped base (environment
value empty or a single slash) is falsy in JavaScript, so the endpoint is
null and reporting stays disabled in that case. -/
def crashReportEndpoint (env : Option String) : Option String :=
  match crashReportBaseURL env with
  | some b => if b == "" then none else some (b ++ "/api/report")
  | none => none

/- ### Reporter runtime behaviour (src/reporter.ts crashReport, src/hook.ts)

External outcomes are passed in: the confirmation dialog either returns true,
returns false, or throws out of the awaited call; the send step may throw.
The run returns which process exit the function itself performed and which
payloads it POSTed to the endpoint. -/

/-- Outcome of the awaited confirmation step as seen by crashReport. -/
inductive ConfirmOutcome where
  | yes : ConfirmOutcome
  | no : ConfirmOutcome
  | throws : ConfirmOutcome
  deriving DecidableEq

/-- Effects of one run of crashReport: the exit the function itself performed
(if any) and the payload kinds sent over the network. -/
structure ReporterRun where
  exitCode : Option Nat
  sends : List String
  deriving DecidableEq

/-- The early-exit guard of crashReport: the content is falsy, trims to the
empty string, or trims to an empty object literal. -/
def isTrivialReportContent (s : String) : Bool :=
  s == "" || trimString s == "" || trimString s == "\x7b\x7d"

/-- The crashReport function of src/reporter.ts.  On trivial content it calls
the process exit with status 1 itself; otherwise it confirms and sends, and
its catch block attempts a best-effort internal-error report (without a second
confirmation) when the endpoint is configured.  Outside the trivial-content
guard the function never exits the process: the source defers that to the
event handlers of the hook. -/
def crashReport (hasEndpoint : Bool) (content : String) (confirm : ConfirmOutcome)
    (sendThrows : Bool) : ReporterRun :=
  if isTrivialReportContent content then
    { exitCode := some 1, sends := [] }
  else
    match confirm with
    | .no => { exitCode := none, sends := [] }
    | .yes =>
        if sendThrows then
          { exitCode := none,
            sends := if hasEndpoint then ["reporter_internal_error"] else [] }
        else
          { exitCode := none, sends := if hasEndpoint then ["report"] else [] }
    | .throws =>
        { exitCode := none,
          sends := if hasEndpoint then ["reporter_internal_error"] else [] }

/-- One trigger handled by an installed hook listener of src/hook.ts: the
handler awaits crashReport inside a try block whose finally clause calls the
process exit with status 1.  The returned number is the status the process
exits with: either the exit crashReport performed itself, or the exit of the
finally clause. -/
def handleTrigger (hasEndpoint : Bool) (content : String) (confirm : ConfirmOutcome)
    (sendThrows : Bool) : Nat :=
  match (crashReport hasEndpoint content confirm sendThrows).exitCode with
  | some c => c
  | none => 1

/-- The observable result of module initialization of src/hook.ts: which
event listeners were registered and which log line was emitted. -/
structure HookState where
  listeners : List String
  logs : List String
  deriving DecidableEq

/-- Module initialization of src/hook.ts: listeners are registered only when
the endpoint is configured; otherwise a single informational line is logged
and nothing else happens. -/
def installHook (env : Option String) : HookState :=
  match crashReportEndpoint env with
  | some _ =>
      { listeners := ["error", "unhandledrejection"],
        logs := ["Crash reporter activated. Reports will be sent to: " ++
          ((crashReportBaseURL env).getD "")] }
  | none =>
      { listeners := [],
        logs := ["Crash reporter inactive: CRASH_REPORT_BASE_URL environment variable not set."] }

/-- What happens when the host raises an error event: the exit the reporter
causes (none when no listener is registered) and the network sends
performed. -/
structure TriggerOutcome where
  reporterExit : Option Nat
  sends : List String
  deriving DecidableEq

/-- Dispatch of an error event against the state installed by src/hook.ts:
only a registered listener runs the reporting pipeline; without a listener
the reporter performs no work at all. -/
def dispatchErrorEvent (env : Option String) (content : String)
    (confirm : ConfirmOutcome) (sendThrows : Bool) : TriggerOutcome :=
  if "error" ∈ (installHook env).listeners then
    { reporterExit :=
        some (handleTrigger (crashReportEndpoint env).isSome content confirm sendThrows),
      sends := (crashReport (crashReportEndpoint env).isSome content confirm sendThrows).sends }
  else
    { reporterExit := none, sends := [] }

/- ### JavaScript values and serializeValueForReport (src/utils.ts)

The serializer branches on instanceof checks, so the value model separates
error objects from plain data.  An error value carries its name, message and
stack, the information whether it is an AggregateError (in which case its
errors list is an own property), and its remaining own properties.  Every
AggregateError is also an instance of Error, which the embedding reflects by
using one err constructor for both. -/

mutual
inductive JsVal where
  | undef : JsVal
  | null : JsVal
  | bool (b : Bool) : JsVal
  | num (n : Int) : JsVal
  | str (s : String) : JsVal
  | arr (xs : JsArr) : JsVal
  | obj (fs : JsFields) : JsVal
  | err (name message stack : String) (agg : JsAgg) (extra : JsFields) : JsVal
  deriving DecidableEq
inductive JsAgg where
  | notAgg : JsAgg
  | agg (errors : JsArr) : JsAgg
  deriving DecidableEq
inductive JsArr where
  | nil : JsArr
  | cons (hd : JsVal) (tl : JsArr) : JsArr
  deriving DecidableEq
inductive JsFields where
  | nil : JsFields
  | cons (key : String) (val : JsVal) (tl : JsFields) : JsFields
  deriving DecidableEq
end

/-- Appending of field lists, used to model the loop that copies the
remaining own properties onto the result object. -/
def JsFields.append : JsFields → JsFields → JsFields
  | .nil, gs => gs
  | .cons k v tl, gs => .cons k v (JsFields.append tl gs)

/-- Lookup in a field list (first match wins, as in object creation order). -/
def JsFields.lookupKey (k : String) : JsFields → Option JsVal
  | .nil => none
  | .cons key v tl => if key == k then some v else JsFields.lookupKey k tl

/-- Field lookup on a JavaScript object value. -/
def JsVal.getField (k : String) : JsVal → Option JsVal
  | .obj fs => JsFields.lookupKey k fs
  | _ => none

/-- The value is an instance of Error (every AggregateError is as well, since
the prototype chain of AggregateError goes through Error). -/
def isErrorVal : JsVal → Bool
  | .err _ _ _ _ _ => true
  | _ => false

/-- serializeValueForReport of src/utils.ts.  The source checks
(value instanceof Error) first, and that branch is taken by every error value,
AggregateErrors included: it copies name, message and stack, then copies every
other own property verbatim, so an own errors property of an AggregateError is
copied as the raw list of error values.  The second branch of the source, the
one that would recursively serialize the aggregated errors, is unreachable,
because no value is an AggregateError without also being an Error.  Non-error
values are returned unchanged. -/
def serializeValueForReport : JsVal → JsVal
  | .err name message stack agg extra =>
      JsVal.obj (JsFields.cons "name" (.str name)
        (JsFields.cons "message" (.str message)
          (JsFields.cons "stack" (.str stack)
            (JsFields.append
              (match agg with
               | .notAgg => JsFields.nil
               | .agg errors => JsFields.cons "errors" (.arr errors) JsFields.nil)
              extra))))
  | v => v

/- ### Concrete example values used by witnesses and counterexamples -/

/-- A key-value environment where open succeeds and the commit is
acknowledged. -/
def kvOkEnv : KvEnv := ⟨Except.ok (), "id-123", Except.ok true⟩

/-- A key-value environment where the commit acknowledgment reports
failure. -/
def kvCommitFailEnv : KvEnv := ⟨Except.ok (), "id-123", Except.ok false⟩

/-- A key-value environment where opening the store throws. -/
def kvOpenFailEnv : KvEnv := ⟨Except.error "open failed", "id-123", Except.ok true⟩

/-- A key-value environment where the write itself throws. -/
def kvSetThrowEnv : KvEnv := ⟨Except.ok (), "id-123", Except.error "set threw"⟩

/-- The example payload of the specification scenario. -/
def examplePayload : Json :=
  Json.obj (.cons "timestamp" (.str "2024-01-01T00:00:00Z")
    (.cons "report" (.obj (.cons "type" (.str "error")
      (.cons "message" (.str "boom") .nil))) .nil))

/-- The example request of the specification scenario. -/
def exampleRequest : Request :=
  ⟨"/api/report", "POST", some "application/json", Except.ok examplePayload⟩

/-- A request for a path other than the report path. -/
def reqWrongPath : Request := ⟨"/nope", "GET", none, Except.error "SyntaxError"⟩

/-- A non-POST request to the report path. -/
def reqWrongMethod : Request := ⟨"/api/report", "GET", none, Except.error "SyntaxError"⟩

/-- A POST without a content-type header. -/
def reqNoContentType : Request := ⟨"/api/report", "POST", none, Except.error "SyntaxError"⟩

/-- A POST whose body fails to parse as JSON. -/
def reqBadJson : Request :=
  ⟨"/api/report", "POST", some "application/json",
    Except.error "SyntaxError: Unexpected end of JSON input"⟩

/-- A POST whose parsed body is an object missing both required fields. -/
def reqMissingFields : Request :=
  ⟨"/api/report", "POST", some "application/json", Except.ok (Json.obj JsonObj.nil)⟩

/-- An object carrying the two required keys with null values. -/
def nullFieldsObj : JsonObj := .cons "report" Json.null (.cons "timestamp" Json.null .nil)

/-- A POST whose payload has the required keys but null values. -/
def reqNullFields : Request :=
  ⟨"/api/report", "POST", some "Application/JSON; charset=utf-8",
    Except.ok (Json.obj nullFieldsObj)⟩

/-- A plain error value (new Error with message boom). -/
def errVal : JsVal := .err "Error" "boom" "stack0" .notAgg .nil

/-- An aggregate error value holding errVal as its only sub-error. -/
def aggVal : JsVal :=
  .err "AggregateError" "agg failure" "stack1" (.agg (.cons errVal .nil)) .nil

/- ### Theorems -/

/-- Claim C2: the Collector handler validates every request in a fixed order:
a path mismatch yields 404 regardless of method or body; a non-POST to the
report path yields 405 with an Allow POST header; a POST whose content type is
absent or does not contain application/json (case-insensitively) yields 415;
a POST whose body does not parse yields 400; a POST whose parsed body is not
an object with both a report and a timestamp field yields 400; an earlier
failing check preempts all later ones. -/
theorem collector_validation_order (req : Request) (kv : KvEnv) :
    (req.pathname ≠ REPORT_PATH → (handler req kv).status = 404) ∧
    (req.pathname = REPORT_PATH → req.method ≠ "POST" →
      (handler req kv).status = 405 ∧ ("Allow", "POST") ∈ (handler req kv).headers) ∧
    (req.pathname = REPORT_PATH → req.method = "POST" →
      contentTypeOk req.contentType = false → (handler req kv).status = 415) ∧
    (∀ e, req.pathname = REPORT_PATH → req.method = "POST" →
      contentTypeOk req.contentType = true → req.bodyJson = Except.error e →
      (handler req kv).status = 400) ∧
    (∀ j, req.pathname = REPORT_PATH → req.method = "POST" →
      contentTypeOk req.contentType = true → req.bodyJson = Except.ok j →
      validPayload j = false → (handler req kv).status = 400) := by
  refine ⟨?_, ?_, ?_, ?_, ?_⟩
  · intro h; simp [handler, h]
  · intro h1 h2; simp [handler, h1, h2]
  · intro h1 h2 h3; simp [handler, h1, h2, h3]
  · intro e h1 h2 h3 h4; simp [handler, h1, h2, h3, h4]
  · intro j h1 h2 h3 h4 h5; simp [handler, h1, h2, h3, h4, h5]

/-- Witness for claim C2: each of the five validation outcomes observed on a
concrete request. -/
theorem collector_validation_order_witness :
    (handler reqWrongPath kvOkEnv).status = 404 ∧
    ((handler reqWrongMethod kvOkEnv).status = 405 ∧
      ("Allow", "POST") ∈ (handler reqWrongMethod kvOkEnv).headers) ∧
    (handler reqNoContentType kvOkEnv).status = 415 ∧
    (handler reqBadJson kvOkEnv).status = 400 ∧
    (handler reqMissingFields kvOkEnv).status = 400 := by
  refine ⟨?_, ?_, ?_, ?_, ?_⟩
  · exact (collector_validation_order reqWrongPath kvOkEnv).1 (by decide)
  · exact (collector_validation_order reqWrongMethod kvOkEnv).2.1 rfl (by decide)
  · exact (collector_validation_order reqNoContentType kvOkEnv).2.2.1 rfl rfl rfl
  · exact (collector_validation_order reqBadJson kvOkEnv).2.2.2.1
      "SyntaxError: Unexpected end of JSON input" rfl rfl rfl rfl
  · exact (collector_validation_order reqMissingFields kvOkEnv).2.2.2.2
      (Json.obj JsonObj.nil) rfl rfl rfl rfl rfl

/-- Claim C1: for every POST of a valid envelope to the report path with a
correct application/json content type, and a store whose open and commit
succeed, the handler returns 201 with the JSON body built from the message
and the generated id, sets the application/json content type on the response,
and the value stored under the key reports, id is exactly the parsed submitted
payload, so a direct store lookup returns it unchanged. -/
theorem collector_success_roundtrip (req : Request) (kv : KvEnv) (payload : Json)
    (hpath : req.pathname = REPORT_PATH) (hmethod : req.method = "POST")
    (hct : contentTypeOk req.contentType = true)
    (hbody : req.bodyJson = Except.ok payload)
    (hvalid : validPayload payload = true)
    (hopen : kv.openResult = Except.ok ())
    (hset : kv.setResult = Except.ok true) :
    (handler req kv).status = 201 ∧
    (handler req kv).body = Json.stringify (successJson kv.reportId) ∧
    ("Content-Type", "application/json") ∈ (handler req kv).headers ∧
    (handler req kv).stored = [(["reports", kv.reportId], payload)] ∧
    storeLookup ["reports", kv.reportId] (handler req kv).stored = some payload := by
  simp [handler, storeReport, storeLookup, hpath, hmethod, hct, hbody, hvalid, hopen, hset]

/-- Witness for claim C1: the specification scenario request evaluated end to
end, with the concrete 201 body and the round-trip lookup. -/
theorem collector_success_roundtrip_witness :
    (handler exampleRequest kvOkEnv).status = 201 ∧
    (handler exampleRequest kvOkEnv).body =
      "\x7b\"message\":\"Report received successfully\",\"id\":\"id-123\"\x7d" ∧
    ("Content-Type", "application/json") ∈ (handler exampleRequest kvOkEnv).headers ∧
    storeLookup ["reports", "id-123"] (handler exampleRequest kvOkEnv).stored =
      some examplePayload := by
  have h := collector_success_roundtrip exampleRequest kvOkEnv examplePayload
    rfl rfl rfl rfl rfl rfl rfl
  exact ⟨h.1, h.2.1.trans (by decide), h.2.2.1, h.2.2.2.2⟩

/-- Claim C6: for a request that passes all validations, the commit
acknowledgment is checked after the write: a commit whose acknowledgment
reports failure yields 500 with the constant body that leaks no internal
detail, as does a throwing open or a throwing write, and 201 is returned only
on a confirmed-successful commit. -/
theorem collector_commit_ack_checked (req : Request) (kv : KvEnv) (payload : Json)
    (hpath : req.pathname = REPORT_PATH) (hmethod : req.method = "POST")
    (hct : contentTypeOk req.contentType = true)
    (hbody : req.bodyJson = Except.ok payload)
    (hvalid : validPayload payload = true) :
    (kv.setResult = Except.ok false →
      (handler req kv).status = 500 ∧ (handler req kv).body = internalErrorBody) ∧
    (∀ e, kv.openResult = Except.error e →
      (handler req kv).status = 500 ∧ (handler req kv).body = internalErrorBody) ∧
    (∀ e, kv.setResult = Except.error e →
      (handler req kv).status = 500 ∧ (handler req kv).body = internalErrorBody) ∧
    ((handler req kv).status = 201 → kv.setResult = Except.ok true) := by
  refine ⟨?_, ?_, ?_, ?_⟩
  · intro hset
    cases hopen : kv.openResult with
    | error e => simp [handler, storeReport, hpath, hmethod, hct, hbody, hvalid, hopen]
    | ok u => simp [handler, storeReport, hpath, hmethod, hct, hbody, hvalid, hopen, hset]
  · intro e hopen
    simp [handler, storeReport, hpath, hmethod, hct, hbody, hvalid, hopen]
  · intro e hset
    cases hopen : kv.openResult with
    | error e2 => simp [handler, storeReport, hpath, hmethod, hct, hbody, hvalid, hopen]
    | ok u => simp [handler, storeReport, hpath, hmethod, hct, hbody, hvalid, hopen, hset]
  · intro h201
    cases hopen : kv.openResult with
    | error e =>
        exfalso
        simp [handler, storeReport, hpath, hmethod, hct, hbody, hvalid, hopen] at h201
    | ok u =>
        cases hset : kv.setResult with
        | error e =>
            exfalso
            simp [handler, storeReport, hpath, hmethod, hct, hbody, hvalid, hopen, hset] at h201
        | ok b =>
            cases b with
            | true => rfl
            | false =>
                exfalso
                simp [handler, storeReport, hpath, hmethod, hct, hbody, hvalid, hopen, hset] at h201

/-- Witness for claim C6: on the specification scenario request, a commit
acknowledgment reporting failure yields 500 with the constant body, and so
do a throwing open and a throwing write. -/
theorem collector_commit_ack_checked_witness :
    ((handler exampleRequest kvCommitFailEnv).status = 500 ∧
      (handler exampleRequest kvCommitFailEnv).body = internalErrorBody) ∧
    ((handler exampleRequest kvOpenFailEnv).status = 500 ∧
      (handler exampleRequest kvOpenFailEnv).body = internalErrorBody) ∧
    ((handler exampleRequest kvSetThrowEnv).status = 500 ∧
      (handler exampleRequest kvSetThrowEnv).body = internalErrorBody) := by
  refine ⟨?_, ?_, ?_⟩
  · exact (collector_commit_ack_checked exampleRequest kvCommitFailEnv examplePayload
      rfl rfl rfl rfl rfl).1 rfl
  · exact (collector_commit_ack_checked exampleRequest kvOpenFailEnv examplePayload
      rfl rfl rfl rfl rfl).2.1 "open failed" rfl
  · exact (collector_commit_ack_checked exampleRequest kvSetThrowEnv examplePayload
      rfl rfl rfl rfl rfl).2.2.1 "set threw" rfl

/-- Claim C9 (evaluation at the failing input): on a valid request whose
commit acknowledgment reports failure, and likewise when the write throws,
the handler opens a store handle but never closes it: the source throws out
of the try block before the close call, and the catch block returns 500
without closing, so the handle is released only on the success path.  The
success path itself does close the handle. -/
theorem collector_handle_leak_on_commit_failure :
    ((handler exampleRequest kvCommitFailEnv).status = 500 ∧
      (handler exampleRequest kvCommitFailEnv).opened = 1 ∧
      (handler exampleRequest kvCommitFailEnv).closed = 0) ∧
    ((handler exampleRequest kvSetThrowEnv).opened = 1 ∧
      (handler exampleRequest kvSetThrowEnv).closed = 0) ∧
    ((handler exampleRequest kvOkEnv).opened = 1 ∧
      (handler exampleRequest kvOkEnv).closed = 1) := by decide

/-- Claim C10: the payload validation checks only the presence of the report
and timestamp keys, never their values; an object carrying both keys with any
values, null included, passes validation, is stored as-is and receives
201. -/
theorem collector_presence_only_validation (fs : JsonObj) (req : Request) (kv : KvEnv)
    (hpath : req.pathname = REPORT_PATH) (hmethod : req.method = "POST")
    (hct : contentTypeOk req.contentType = true)
    (hbody : req.bodyJson = Except.ok (Json.obj fs))
    (hr : fs.hasKey "report" = true) (ht : fs.hasKey "timestamp" = true)
    (hopen : kv.openResult = Except.ok ())
    (hset : kv.setResult = Except.ok true) :
    (∀ gs : JsonObj, validPayload (Json.obj gs) =
      (gs.hasKey "report" && gs.hasKey "timestamp")) ∧
    (handler req kv).status = 201 ∧
    (handler req kv).stored = [(["reports", kv.reportId], Json.obj fs)] := by
  refine ⟨fun gs => rfl, ?_, ?_⟩ <;>
    simp [handler, storeReport, validPayload, hpath, hmethod, hct, hbody, hr, ht,
      hopen, hset]

/-- Witness for claim C10: a payload whose report and timestamp fields are
both null passes validation, is stored unchanged and receives 201. -/
theorem collector_presence_only_validation_witness :
    validPayload (Json.obj nullFieldsObj) = true ∧
    (handler reqNullFields kvOkEnv).status = 201 ∧
    (handler reqNullFields kvOkEnv).stored =
      [(["reports", "id-123"], Json.obj nullFieldsObj)] := by
  have h := collector_presence_only_validation nullFieldsObj reqNullFields kvOkEnv
    rfl rfl rfl rfl rfl rfl rfl rfl
  exact ⟨by decide, h.2.1, h.2.2⟩

/-- Claim C4: when the base URL configuration is absent, the hook module
registers no error or unhandledrejection listener, emits exactly the one-line
informational log, and an error raised by the host afterwards causes no
reporter activity at all: no network send and no reporter-caused exit.  The
embedding is a total function, so module initialization also cannot throw. -/
theorem reporter_inactive_without_base_url (content : String)
    (confirm : ConfirmOutcome) (sendThrows : Bool) :
    (installHook none).listeners = [] ∧
    (installHook none).logs =
      ["Crash reporter inactive: CRASH_REPORT_BASE_URL environment variable not set."] ∧
    dispatchErrorEvent none content confirm sendThrows =
      { reporterExit := none, sends := [] } := by
  refine ⟨rfl, rfl, ?_⟩
  simp [dispatchErrorEvent, installHook, crashReportEndpoint, crashReportBaseURL]

/-- Claim C5: every trigger handled by an installed hook listener ends with
the host process exiting with status 1, hence non-zero, whether the user
confirms, declines, or the confirmation or send step throws; the exit comes
from a finally clause, or from the early-exit guard of crashReport, and no
execution path terminates the process with status zero. -/
theorem reporter_always_exits_nonzero (hasEndpoint : Bool) (content : String)
    (confirm : ConfirmOutcome) (sendThrows : Bool) :
    handleTrigger hasEndpoint content confirm sendThrows = 1 ∧
    handleTrigger hasEndpoint content confirm sendThrows ≠ 0 := by
  have h : handleTrigger hasEndpoint content confirm sendThrows = 1 := by
    unfold handleTrigger crashReport
    by_cases htriv : isTrivialReportContent content = true
    · simp [htriv]
    · cases confirm <;> cases sendThrows <;> simp [htriv]
  exact ⟨h, by rw [h]; decide⟩

/-- Counterexample to claim C7 as stated: invoked on empty content, the
crashReport function itself exits the process with status 1 through its
trivial-content guard, so it does not hold that manual invocation never
terminates the process. -/
theorem crashreport_exits_on_trivial_content :
    (crashReport true "" ConfirmOutcome.yes false).exitCode = some 1 ∧
    (crashReport true "\x7b\x7d" ConfirmOutcome.yes false).exitCode = some 1 := by decide

/-- Claim C7 as amended: for every content that is not trivial (not falsy and
not trimming to the empty string or to an empty object literal), a manual
crashReport invocation performs no process exit itself, in every confirmation
and send outcome; deciding whether to exit is left to the caller.  For
trivial content the function exits with status 1 itself. -/
theorem crashreport_no_exit_on_nontrivial_content (hasEndpoint : Bool)
    (content : String) (confirm : ConfirmOutcome) (sendThrows : Bool)
    (h : isTrivialReportContent content = false) :
    (crashReport hasEndpoint content confirm sendThrows).exitCode = none := by
  unfold crashReport
  cases confirm <;> cases sendThrows <;> simp [h]

/-- Witness for the amended claim C7: a concrete non-trivial content on which
crashReport returns without exiting. -/
theorem crashreport_no_exit_witness :
    isTrivialReportContent "boom report" = false ∧
    (crashReport true "boom report" ConfirmOutcome.yes false).exitCode = none :=
  ⟨by decide,
    crashreport_no_exit_on_nontrivial_content true "boom report"
      ConfirmOutcome.yes false (by decide)⟩

/-- Counterexample to claim C8 as stated: for the configured base URL
consisting of a single slash, stripping the trailing slash leaves the empty
string, which is falsy, so the source sets the endpoint to null instead of
the slash-stripped base followed by /api/report. -/
theorem endpoint_slash_base_counterexample :
    crashReportEndpoint (some "/") = none ∧
    crashReportEndpoint (some "/") ≠
      some (stripTrailingSlash "/" ++ "/api/report") := by decide

/-- Claim C8 as amended: for every configured base URL whose trailing-slash
stripped form is nonempty, the submission endpoint is that stripped base
followed by the literal suffix /api/report; when the stripped form is empty
(base URL empty or a single slash) the endpoint is null and reporting is
disabled. -/
theorem endpoint_derivation (s : String)
    (h : ¬ stripTrailingSlash s = "") :
    crashReportEndpoint (some s) =
      some (stripTrailingSlash s ++ "/api/report") := by
  unfold crashReportEndpoint crashReportBaseURL
  simp [h]

/-- Witness for the amended claim C8: a concrete base URL with trailing slash
mapped to its endpoint. -/
theorem endpoint_derivation_witness :
    ¬ stripTrailingSlash "http://example.com/" = "" ∧
    crashReportEndpoint (some "http://example.com/") =
      some "http://example.com/api/report" :=
  ⟨by decide,
    (endpoint_derivation "http://example.com/" (by decide)).trans (by decide)⟩

/-- Claim C3 (evaluation at the failing input): the source checks instanceof
Error before instanceof AggregateError, and every AggregateError is an
instance of Error, so an aggregate error is serialized by the first branch:
its own errors property is copied verbatim as the raw list of sub-error
values, not the recursively serialized list the claim describes; the branch
that would serialize recursively is unreachable.  Serializing the sub-error
changes it (an error value becomes a plain object), so the raw list differs
from the recursively serialized list. -/
theorem serialize_aggregate_copies_raw_errors :
    serializeValueForReport aggVal =
      JsVal.obj (.cons "name" (.str "AggregateError")
        (.cons "message" (.str "agg failure")
          (.cons "stack" (.str "stack1")
            (.cons "errors" (.arr (.cons errVal .nil)) .nil)))) ∧
    (serializeValueForReport aggVal).getField "errors" =
      some (.arr (.cons errVal .nil)) ∧
    serializeValueForReport errVal ≠ errVal ∧
    (serializeValueForReport aggVal).getField "errors" ≠
      some (.arr (.cons (serializeValueForReport errVal) .nil)) := by decide

end CrashReport
